import Mathlib

/-!
Shallow embedding of the graceful-shutdown subsystem of the
`nest-ts-valid-mongodb` package.

The repository carries two parallel implementations of the subsystem:

* a monolithic variant: `src/lib/core/shutdown/manager.ts` together with
  `src/lib/core/shutdown/utilities.ts` (suffix `M` or no suffix below), and
* a refactored variant: `src/lib/core/shutdown/service.ts`,
  `orchestrator.ts`, `timeout.ts`, `retry.ts`, `config.ts` and
  `core/guards.ts` (suffix `S` / `G` below).

Conventions of the embedding:

* JavaScript runtime values are modelled by `JsValue`; JavaScript numbers by
  `JsNum` (a rational, or NaN, or an infinity).
* A thrown JavaScript value is a `JsThrown`: either an `Error` instance
  (`JsError`, which carries `name`, `message`, optional `stack`, and a flag
  recording whether it is an instance of the class `ShutdownTimeoutError`)
  or any other value, carried by its string representation.
* Asynchronous operations are modelled by their settle time in integral
  milliseconds (`none` = the promise never settles) together with their
  outcome; `setTimeout` timers fire exactly at their delay.  When an
  operation settles at the very tick at which a racing timer fires, the
  timer is taken to win the race; the claims under study only constrain the
  strict cases.
* Logging (`Logger.log` / `Logger.error` through the structured helpers) is
  modelled as a pure trace of `Event` values returned next to each result.
* Uncaught exception propagation is explicit: functions whose source can
  reject return `Except`, `try`/`catch` blocks are translated by `tryCatch`,
  and `Promise.all` by `promiseAll`.  The error type `JsThrown × Nat` pairs
  the thrown value with the elapsed time at which the rejection is observed,
  which is what `Date.now() - start` reads in the corresponding `catch`.
-/

namespace Shutdown

/-- A JavaScript number: a finite rational, NaN, or a signed infinity. -/
inductive JsNum where
  | fin (q : ℚ)
  | nan
  | posInf
  | negInf
  deriving DecidableEq

/-- `value < 0` on JavaScript numbers: comparisons with NaN are false. -/
def jsNumLtZero : JsNum → Bool
  | .fin q => q < 0
  | .nan => false
  | .posInf => false
  | .negInf => true

/-- `value >= 0` on JavaScript numbers: comparisons with NaN are false. -/
def jsNumGeZero : JsNum → Bool
  | .fin q => 0 ≤ q
  | .nan => false
  | .posInf => true
  | .negInf => false

/-- `Number.isFinite`. -/
def jsNumIsFinite : JsNum → Bool
  | .fin _ => true
  | _ => false

/-- An `Error` instance.  `timeoutInstance` records whether the object is an
instance of the class `ShutdownTimeoutError`, which both variants test with
`instanceof` to distinguish timeout failures. -/
structure JsError where
  name : String
  message : String
  stack : Option String
  timeoutInstance : Bool
  deriving DecidableEq

/-- `new Error(message)`. -/
def mkError (message : String) : JsError :=
  { name := "Error", message := message, stack := none, timeoutInstance := false }

/-- `new ShutdownTimeoutError(operation, timeoutMs)` from
`shutdown/utilities.ts` and `shutdown/timeout.ts`: the message is
`` `${operation} exceeded timeout of ${timeoutMs}ms` `` and the name is
`ShutdownTimeoutError`. -/
def shutdownTimeoutError (operation : String) (timeoutMs : Nat) : JsError :=
  { name := "ShutdownTimeoutError"
  , message := operation ++ " exceeded timeout of " ++ toString timeoutMs ++ "ms"
  , stack := none
  , timeoutInstance := true }

/-- A thrown JavaScript value: an `Error` instance, or any other value
carried by its string representation `String(value)`. -/
inductive JsThrown where
  | errObj (e : JsError)
  | nonError (s : String)
  deriving DecidableEq

/-- `error instanceof Error ? error : new Error(String(error))` — the
normalisation both retry executors and both closers apply to caught
values. -/
def normalizeThrown : JsThrown → JsError
  | .errObj e => e
  | .nonError s => mkError s

/-- `error instanceof ShutdownTimeoutError`. -/
def isTimeoutThrown : JsThrown → Bool
  | .errObj e => e.timeoutInstance
  | .nonError _ => false

/-- A JavaScript runtime value, sufficient for the structural handle
validation and for configuration input. -/
inductive JsValue where
  | vUndefined
  | vNull
  | vBool (b : Bool)
  | vNum (n : JsNum)
  | vStr (s : String)
  | vSym (d : String)
  | vFunc (id : Nat)
  | vObj (fields : List (String × JsValue))

/-- The `typeof` operator. -/
def jsTypeof : JsValue → String
  | .vUndefined => "undefined"
  | .vNull => "object"
  | .vBool _ => "boolean"
  | .vNum _ => "number"
  | .vStr _ => "string"
  | .vSym _ => "symbol"
  | .vFunc _ => "function"
  | .vObj _ => "object"

/-- Whether the value is `null`. -/
def isNullValue : JsValue → Bool
  | .vNull => true
  | _ => false

/-- Whether the value is `undefined`. -/
def isUndefinedValue : JsValue → Bool
  | .vUndefined => true
  | _ => false

/-- Key membership in an object literal field list. -/
def hasField : List (String × JsValue) → String → Bool
  | [], _ => false
  | (k, _) :: rest, n => k == n || hasField rest n

/-- Field lookup in an object literal field list. -/
def getField : List (String × JsValue) → String → Option JsValue
  | [], _ => none
  | (k, v) :: rest, n => if k == n then some v else getField rest n

/-- The `in` operator, restricted to own properties of plain objects (the
only shape the validators reach it on). -/
def jsHasProp (v : JsValue) (n : String) : Bool :=
  match v with
  | .vObj fs => hasField fs n
  | _ => false

/-- `typeof value.prop`. -/
def jsPropTypeof (v : JsValue) (n : String) : String :=
  match v with
  | .vObj fs =>
    match getField fs n with
    | some x => jsTypeof x
    | none => "undefined"
  | _ => "undefined"

/-- `isValidConnectionWrapper` from `shutdown/utilities.ts` (monolithic
variant): `typeof value === "object" && value !== null && "close" in value
&& typeof value.close === "function" && "client" in value`. -/
def isValidConnectionWrapper (value : JsValue) : Bool :=
  jsTypeof value == "object" && !isNullValue value && jsHasProp value "close" &&
    jsPropTypeof value "close" == "function" && jsHasProp value "client"

/-- `isValidConnectionWrapper` from `core/guards.ts` (refactored variant),
written with its early-return guard clauses. -/
def isValidConnectionWrapperG (value : JsValue) : Bool :=
  if isNullValue value then false
  else if isUndefinedValue value then false
  else if !(jsTypeof value == "object") then false
  else if !jsHasProp value "close" then false
  else if !(jsPropTypeof value "close" == "function") then false
  else if !jsHasProp value "client" then false
  else true

/-- Modelled from the spec (section 4.4 step 2 and section 6): the handle
must be "a non-null object exposing a callable `close` member".  This is
the acceptance condition the specification states; it is compared against
the code validators, which additionally require a `client` property. -/
def specValidHandle (value : JsValue) : Bool :=
  jsTypeof value == "object" && !isNullValue value && jsHasProp value "close" &&
    jsPropTypeof value "close" == "function"

/-- User-supplied connection options, restricted to the two fields the
config resolver reads.  `shutdownTimeout` is kept as a raw `JsValue`
because the resolver re-checks `typeof` at runtime. -/
structure ConnectionOptionsL where
  shutdownTimeout : Option JsValue
  forceShutdown : Option Bool

/-- `options?.shutdownTimeout`: `none` stands for `undefined`. -/
def userTimeoutOf (o : Option ConnectionOptionsL) : Option JsValue :=
  o.bind (fun x => x.shutdownTimeout)

/-- The resolved shutdown configuration (type `ShutdownConfig` of
`shutdown/config.ts` / `shutdown/utilities.ts`). -/
structure ShutdownConfigJ where
  timeoutMs : JsNum
  retryAttempts : Nat
  forceClose : Bool
  deriving DecidableEq

/-- `SHUTDOWN_DEFAULTS.TIMEOUT_MS = 10000`. -/
def defaultTimeoutMs : JsNum := .fin 10000

/-- `SHUTDOWN_DEFAULTS.RETRY_ATTEMPTS = 2`. -/
def defaultRetryAttempts : Nat := 2

/-- `resolveShutdownConfig` from `shutdown/utilities.ts`: the timeout is the
user value when `typeof userTimeout === "number" && userTimeout >= 0 &&
Number.isFinite(userTimeout)`, else 10000; `retryAttempts` is the constant
default; `forceClose` is `options?.forceShutdown ?? false`. -/
def resolveShutdownConfig (o : Option ConnectionOptionsL) : ShutdownConfigJ :=
  let userTimeout := userTimeoutOf o
  let timeoutMs :=
    match userTimeout with
    | some (.vNum n) => if jsNumGeZero n && jsNumIsFinite n then n else defaultTimeoutMs
    | _ => defaultTimeoutMs
  let forceClose := (o.bind (fun x => x.forceShutdown)).getD false
  { timeoutMs := timeoutMs, retryAttempts := defaultRetryAttempts, forceClose := forceClose }

/-- `isValidTimeout` from `shutdown/config.ts`: `typeof value !== "number"`
rejects, `value < 0` rejects, `!Number.isFinite(value)` rejects. -/
def isValidTimeout (value : Option JsValue) : Bool :=
  match value with
  | some (.vNum n) =>
    if jsNumLtZero n then false
    else if !jsNumIsFinite n then false
    else true
  | _ => false

/-- `resolveShutdownConfig` from `shutdown/config.ts` (refactored variant),
using `isValidTimeout`; the extraction under the `if` renders the TypeScript
type narrowing of `userTimeout`. -/
def resolveShutdownConfigC (o : Option ConnectionOptionsL) : ShutdownConfigJ :=
  let userTimeout := userTimeoutOf o
  let timeoutMs :=
    if isValidTimeout userTimeout then
      match userTimeout with
      | some (.vNum n) => n
      | _ => defaultTimeoutMs
    else defaultTimeoutMs
  let forceClose := (o.bind (fun x => x.forceShutdown)).getD false
  { timeoutMs := timeoutMs, retryAttempts := defaultRetryAttempts, forceClose := forceClose }

/-- The force flag forwarded to the native client by the `close` member of
the wrapper built in `createConnectionWrapper` (`core/module.ts`):
`const shouldForce = force ?? options.forceShutdown ?? false`.  The
arguments model the provided `options.forceShutdown` and the `force`
parameter (`none` = omitted / `undefined`); the result is the argument of
`nativeClient.close`. -/
def createdWrapperCloseForce (forceShutdown : Option Bool) (force : Option Bool) : Bool :=
  (force <|> forceShutdown).getD false

/-- Result object of the refactored retry executor (`RetryResult` of
`shutdown/retry.ts`): success flag, optional value, optional normalised
error, and the number of attempts performed.  The monolithic
`shutdown/utilities.ts` executor returns `RetryResultU` instead, which has
no attempt count. -/
structure RetryResult (α : Type) where
  success : Bool
  value : Option α
  error : Option JsError
  attempts : Nat
  deriving DecidableEq

/-- Loop of `withRetry`.  The operation is re-invoked on each attempt and is
modelled as a function of the 0-indexed attempt number; the second component
of the result collects the backoff delays awaited (`calculateBackoff`:
`delayMs * 2 ^ attempt`), in order.  `remaining` is the structural fuel
`maxAttempts - attempt`; the loop exits when it reaches zero. -/
def withRetryAux (op : Nat → Except JsThrown α) (maxAttempts delayMs : Nat) :
    Nat → Nat → Option JsError → RetryResult α × List Nat
  | _, 0, lastError =>
    ({ success := false, value := none, error := lastError, attempts := maxAttempts }, [])
  | attempt, remaining + 1, _ =>
    match op attempt with
    | .ok v =>
      ({ success := true, value := some v, error := none, attempts := attempt + 1 }, [])
    | .error e =>
      let le := normalizeThrown e
      if attempt = maxAttempts - 1 then
        ({ success := false, value := none, error := some le, attempts := maxAttempts }, [])
      else
        let rest := withRetryAux op maxAttempts delayMs (attempt + 1) remaining (some le)
        (rest.1, delayMs * 2 ^ attempt :: rest.2)

/-- `withRetry` from `shutdown/retry.ts`: up to `maxAttempts` attempts with
exponential backoff `delayMs * 2 ^ attempt` between failed attempts, no
delay after the last attempt, never throws. -/
def withRetry (op : Nat → Except JsThrown α) (maxAttempts delayMs : Nat) :
    RetryResult α × List Nat :=
  withRetryAux op maxAttempts delayMs 0 maxAttempts none

/-- Result object of the monolithic retry executor (`shutdown/utilities.ts`):
`{ success: boolean; value?: T; error?: Error }` — unlike the refactored
executor, it carries no attempt count. -/
structure RetryResultU (α : Type) where
  success : Bool
  value : Option α
  error : Option JsError
  deriving DecidableEq

/-- `SHUTDOWN_DEFAULTS.RETRY_DELAY_MS = 100`, the fixed base delay the
monolithic executor reads. -/
def defaultRetryDelayMs : Nat := 100

/-- Loop of the monolithic `withRetry` (`shutdown/utilities.ts`): the same
control flow as the refactored loop, with the base delay fixed to
`SHUTDOWN_DEFAULTS.RETRY_DELAY_MS` and a result without attempt count. -/
def withRetryUAux (op : Nat → Except JsThrown α) (maxAttempts : Nat) :
    Nat → Nat → Option JsError → RetryResultU α × List Nat
  | _, 0, lastError =>
    ({ success := false, value := none, error := lastError }, [])
  | attempt, remaining + 1, _ =>
    match op attempt with
    | .ok v =>
      ({ success := true, value := some v, error := none }, [])
    | .error e =>
      let le := normalizeThrown e
      if attempt = maxAttempts - 1 then
        ({ success := false, value := none, error := some le }, [])
      else
        let rest := withRetryUAux op maxAttempts (attempt + 1) remaining (some le)
        (rest.1, defaultRetryDelayMs * 2 ^ attempt :: rest.2)

/-- `withRetry` from `shutdown/utilities.ts` (monolithic variant). -/
def withRetryU (op : Nat → Except JsThrown α) (maxAttempts : Nat) :
    RetryResultU α × List Nat :=
  withRetryUAux op maxAttempts 0 maxAttempts none

/-- One structured log record, one constructor per event kind of
`SHUTDOWN_EVENTS` (`constants/shutdown.ts`).  The `failed` record carries
the error message and, on the catch paths that report it, the elapsed
duration; stack traces are not modelled. -/
inductive Event where
  | start (connectionCount : Nat)
  | complete (totalConnections successCount failureCount durationMs : Nat)
  | timeout (timeoutMs : Nat)
  | closed (token : String) (durationMs : Nat)
  | failed (token : String) (message : Option String) (durationMs : Option Nat)
  deriving DecidableEq

/-- A connection token: `string | symbol`. -/
inductive Token where
  | str (s : String)
  | sym (d : String)
  deriving DecidableEq

/-- `String(token)`. -/
def tokenToString : Token → String
  | .str s => s
  | .sym d => "Symbol(" ++ d ++ ")"

/-- The per-token environment: the outcome of `moduleRef.get(token)` (which
may throw), and the behaviour of the `close` member of the resolved
wrapper.  `close arg i` describes the promise returned by the i-th
invocation (0-indexed attempt) of `close` with argument `arg`
(`none` = called with no argument, i.e. `undefined`): `none` means the
promise never settles, `some (d, out)` means it settles after `d`
milliseconds with outcome `out`. -/
structure TokenBehavior where
  resolved : Except JsThrown JsValue
  close : Option Bool → Nat → Option (Nat × Except JsThrown Unit)

/-- Timed run of the retried close operation: the retry loop of `withRetry`
applied to `() => wrapper.close(arg)`, with its settle time.  Returns
`none` when some required attempt never settles (so the retried operation
never settles); otherwise `some (t, result)` where `t` is the total elapsed
time: attempt durations plus the backoff delays `delayMs * 2 ^ attempt`
between failed non-final attempts. -/
def closeRetryTimedAux (beh : TokenBehavior) (arg : Option Bool) (maxAttempts delayMs : Nat) :
    Nat → Nat → Option JsError → Option (Nat × RetryResult Unit)
  | _, 0, lastError =>
    some (0, { success := false, value := none, error := lastError, attempts := maxAttempts })
  | attempt, remaining + 1, _ =>
    match beh.close arg attempt with
    | none => none
    | some (d, out) =>
      match out with
      | .ok _ =>
        some (d, { success := true, value := some (), error := none, attempts := attempt + 1 })
      | .error e =>
        let le := normalizeThrown e
        if attempt = maxAttempts - 1 then
          some (d, { success := false, value := none, error := some le, attempts := maxAttempts })
        else
          match closeRetryTimedAux beh arg maxAttempts delayMs (attempt + 1) remaining (some le) with
          | none => none
          | some (t, res) => some (d + delayMs * 2 ^ attempt + t, res)

/-- Entry point of the timed retried close. -/
def closeRetryTimed (beh : TokenBehavior) (arg : Option Bool) (maxAttempts delayMs : Nat) :
    Option (Nat × RetryResult Unit) :=
  closeRetryTimedAux beh arg maxAttempts delayMs 0 maxAttempts none

/-- An asynchronous computation: its settle time (`none` = never settles)
and, when it settles, its outcome (`.ok` = fulfilled, `.error` =
rejected). -/
structure AsyncResult (α : Type) where
  settlesAt : Option Nat
  value : Except JsThrown α

/-- The retried close as an asynchronous computation.  The retry executor
itself never rejects, so the value is always a fulfilment; the placeholder
result in the never-settling case is never observed. -/
def retryAsync (beh : TokenBehavior) (arg : Option Bool) (maxAttempts delayMs : Nat) :
    AsyncResult (RetryResult Unit) :=
  match closeRetryTimed beh arg maxAttempts delayMs with
  | some (t, r) => { settlesAt := some t, value := .ok r }
  | none =>
    { settlesAt := none
    , value := .ok { success := false, value := none, error := none, attempts := 0 } }

/-- `withTimeout` (`shutdown/utilities.ts` and `shutdown/timeout.ts`):
`Promise.race` between the operation and a timer that rejects with a
`ShutdownTimeoutError` after `timeoutMs`.  The race always settles: at the
operation settle time with the operation outcome when that is strictly
before the deadline, and at `timeoutMs` with the timeout rejection
otherwise (in particular when the operation never settles). -/
def withTimeout (op : AsyncResult α) (timeoutMs : Nat) (operation : String) :
    Nat × Except JsThrown α :=
  match op.settlesAt with
  | some t =>
    if t < timeoutMs then (t, op.value)
    else (timeoutMs, .error (.errObj (shutdownTimeoutError operation timeoutMs)))
  | none => (timeoutMs, .error (.errObj (shutdownTimeoutError operation timeoutMs)))

/-- A `try`/`catch` block: the handler receives the thrown value. -/
def tryCatch (body : Except ε α) (handler : ε → Except ε α) : Except ε α :=
  match body with
  | .ok a => .ok a
  | .error e => handler e

/-- `Promise.all`: fulfils with the list of results when every promise
fulfils, rejects with a rejection otherwise. -/
def promiseAll : List (Except ε α) → Except ε (List α)
  | [] => .ok []
  | x :: xs =>
    match x, promiseAll xs with
    | .ok a, .ok rest => .ok (a :: rest)
    | .error e, _ => .error e
    | .ok _, .error e => .error e

/-- The resolved configuration as consumed by the timed execution model:
timeouts in integral milliseconds. -/
structure ShutdownConfigN where
  timeoutMs : Nat
  retryAttempts : Nat
  forceClose : Bool
  deriving DecidableEq

/-- `CloseResult` of `shutdown/orchestrator.ts`. -/
structure CloseResultL where
  token : Token
  success : Bool
  durationMs : Nat
  error : Option JsError
  deriving DecidableEq

/-- `getWrapper` of `shutdown/orchestrator.ts`: resolves the token, returns
`none` when resolution throws or the value fails the guards validator. -/
def getWrapper (beh : TokenBehavior) : Option JsValue :=
  match beh.resolved with
  | .ok w => if isValidConnectionWrapperG w then some w else none
  | .error _ => none

/-- `closeConnection` of `shutdown/orchestrator.ts`.  The early return for a
missing or invalid wrapper produces a fixed failure with `durationMs = 0`
and no log record.  On the valid path the retried close — note the `none`
argument: `closeWithRetry` invokes `wrapper.close()` with no force argument
— is raced against the per-resource timeout; the outcome is logged and
turned into a `CloseResult`.  The error component of a rejection carries
the elapsed time read by `Date.now() - startTime` in the `catch`. -/
def closeConnectionE (token : Token) (beh : TokenBehavior) (timeoutMs retryAttempts : Nat) :
    Except (JsThrown × Nat) (CloseResultL × List Event) :=
  match getWrapper beh with
  | none =>
    .ok ({ token := token, success := false, durationMs := 0
         , error := some (mkError "Invalid or missing wrapper") }, [])
  | some _ =>
    tryCatch
      (match withTimeout (retryAsync beh none retryAttempts 100) timeoutMs
          ("close connection " ++ tokenToString token) with
       | (t, .ok r) =>
         if r.success then
           .ok ({ token := token, success := true, durationMs := t, error := none },
                [Event.closed (tokenToString token) t])
         else
           .ok ({ token := token, success := false, durationMs := t, error := r.error },
                [Event.failed (tokenToString token) (r.error.map (fun e => e.message)) none])
       | (t, .error e) => .error (e, t))
      (fun p =>
        .ok ({ token := token, success := false, durationMs := p.2
             , error := some (normalizeThrown p.1) },
             [Event.failed (tokenToString token) (some (normalizeThrown p.1).message) (some p.2)]))

/-- `closeAllConnections` of `shutdown/orchestrator.ts`: `Promise.all` over
`closeConnection` for each token. -/
def closeAllConnectionsE (tokens : List Token) (env : Token → TokenBehavior)
    (timeoutMs retryAttempts : Nat) :
    Except (JsThrown × Nat) (List (CloseResultL × List Event)) :=
  promiseAll (tokens.map (fun t => closeConnectionE t (env t) timeoutMs retryAttempts))

/-- `ShutdownSummary`. -/
structure ShutdownSummary where
  totalConnections : Nat
  successCount : Nat
  failureCount : Nat
  durationMs : Nat
  deriving DecidableEq

/-- `countResults` of `shutdown/service.ts`: successes and
`results.length - successes`. -/
def countResults (results : List CloseResultL) : Nat × Nat :=
  let success := (results.filter (fun r => r.success)).length
  (success, results.length - success)

/-- `executeShutdown` of `shutdown/service.ts`.  `batch` abstracts the
outcome of `await withTimeout(closeAllConnections(...), { timeoutMs,
operation: "shutdown" })` — a fulfilment with the collected results, or a
rejection (in particular the `ShutdownTimeoutError` injected by the outer
guard when the deadline fires first).  `elapsedMs` is the value
`Date.now() - startTime` reads when the await settles.  Empty token lists
return the zero summary with no events; otherwise the start event is
emitted before the guarded await, whose rejection is caught: a
`ShutdownTimeoutError` additionally logs the timeout event, and every
rejection yields the degraded summary with all tokens counted failed. -/
def executeShutdownSE (tokens : List Token) (cfg : ShutdownConfigN)
    (batch : Except JsThrown (List CloseResultL)) (elapsedMs : Nat) :
    Except (JsThrown × Nat) (ShutdownSummary × List Event) :=
  if tokens.length = 0 then
    .ok ({ totalConnections := 0, successCount := 0, failureCount := 0, durationMs := 0 }, [])
  else
    tryCatch
      (match batch with
       | .ok results =>
         let counts := countResults results
         .ok ({ totalConnections := tokens.length, successCount := counts.1
              , failureCount := counts.2, durationMs := elapsedMs },
              [Event.start tokens.length,
               Event.complete tokens.length counts.1 counts.2 elapsedMs])
       | .error e => .error (e, elapsedMs))
      (fun p =>
        .ok ({ totalConnections := tokens.length, successCount := 0
             , failureCount := tokens.length, durationMs := p.2 },
             [Event.start tokens.length] ++
               (if isTimeoutThrown p.1 then [Event.timeout cfg.timeoutMs] else [])))

/-- `closeOneConnection` of `shutdown/manager.ts`.  The whole body is one
`try`/`catch`: resolution throws and the explicit
`throw new Error("Invalid or missing wrapper")` for invalid handles reach
the handler after 0 ms; the retried close — invoked as
`wrapper.close(config.forceClose)`, hence the `some cfg.forceClose`
argument — is raced against the per-resource timeout.  The awaited race
result is not inspected: a fulfilment (even one whose `success` flag is
false) logs the closed event and returns `true`; only a rejection (the
timeout) reaches the handler, which logs the failure with the elapsed time
and returns `false`.  The middle component of the result is the settle
time of the call. -/
def closeOneConnectionE (token : Token) (beh : TokenBehavior) (cfg : ShutdownConfigN) :
    Except (JsThrown × Nat) (Bool × Nat × List Event) :=
  tryCatch
    (match beh.resolved with
     | .error e => .error (e, 0)
     | .ok w =>
       if !isValidConnectionWrapper w then
         .error (.errObj (mkError "Invalid or missing wrapper"), 0)
       else
         match withTimeout (retryAsync beh (some cfg.forceClose) cfg.retryAttempts 100)
             cfg.timeoutMs ("close " ++ tokenToString token) with
         | (t, .ok _) => .ok (true, t, [Event.closed (tokenToString token) t])
         | (t, .error e) => .error (e, t))
    (fun p =>
      .ok (false, p.2,
           [Event.failed (tokenToString token) (some (normalizeThrown p.1).message) (some p.2)]))

/-- `executeShutdown` of `shutdown/manager.ts`.  Empty token lists return
the zero summary with no events.  Otherwise the start event is emitted and
the bare `Promise.all` over `closeOneConnection` is awaited — the source
comment claims a global timeout safety net around the batch, but no
`withTimeout` call wraps it.  The `catch` mirrors the source: it logs the
timeout event only for a `ShutdownTimeoutError` and returns the degraded
summary.  The whole-pass duration is the batch settle time, i.e. the
maximum of the per-token settle times. -/
def executeShutdownME (tokens : List Token) (env : Token → TokenBehavior)
    (cfg : ShutdownConfigN) :
    Except (JsThrown × Nat) (ShutdownSummary × List Event) :=
  if tokens.length = 0 then
    .ok ({ totalConnections := 0, successCount := 0, failureCount := 0, durationMs := 0 }, [])
  else
    tryCatch
      (match promiseAll (tokens.map (fun t => closeOneConnectionE t (env t) cfg)) with
       | .ok rs =>
         let successCount := ((rs.map (fun r => r.1)).filter (fun b => b)).length
         let failureCount := tokens.length - successCount
         let durationMs := (rs.map (fun r => r.2.1)).foldr max 0
         .ok ({ totalConnections := tokens.length, successCount := successCount
              , failureCount := failureCount, durationMs := durationMs },
              [Event.start tokens.length] ++ rs.flatMap (fun r => r.2.2) ++
                [Event.complete tokens.length successCount failureCount durationMs])
       | .error p => .error p)
      (fun p =>
        .ok ({ totalConnections := tokens.length, successCount := 0
             , failureCount := tokens.length, durationMs := p.2 },
             [Event.start tokens.length] ++
               (if isTimeoutThrown p.1 then [Event.timeout cfg.timeoutMs] else [])))

end Shutdown

namespace Shutdown

/-! ### Counterexample and witness environments -/

/-- A structurally valid wrapper value: callable `close` plus `client`. -/
def wrapperVal : JsValue := .vObj [("close", .vFunc 0), ("client", .vObj [])]

/-- Behaviour of a handle whose `close` succeeds after 1 ms when and only
when it is invoked with the argument `true`, and rejects after 1 ms
otherwise; used to observe which force argument each closer passes. -/
def beh4 : TokenBehavior :=
  { resolved := .ok wrapperVal
  , close := fun arg _ =>
      if arg = some true then some (1, .ok ())
      else some (1, .error (.errObj (mkError "force required"))) }

/-- Configuration requesting a forced close. -/
def cfg4 : ShutdownConfigN := { timeoutMs := 1000, retryAttempts := 2, forceClose := true }

/-- Behaviour of a token whose resolution throws. -/
def behBad : TokenBehavior :=
  { resolved := .error (.errObj (mkError "Injection error"))
  , close := fun _ _ => some (0, .ok ()) }

/-- An arbitrary configuration for the resolution-failure scenarios. -/
def cfg7 : ShutdownConfigN := { timeoutMs := 500, retryAttempts := 3, forceClose := false }

end Shutdown

namespace Shutdown

/-! ### Helper lemmas -/

/-- A `try`/`catch` whose handler always returns normally returns
normally. -/
theorem tryCatch_ok {ε α : Type} (body : Except ε α) (handler : ε → Except ε α)
    (hh : ∀ e, ∃ a, handler e = .ok a) : ∃ a, tryCatch body handler = .ok a := by
  cases body with
  | ok a => exact ⟨a, rfl⟩
  | error e => exact (hh e).imp (fun a ha => ha)

/-- Unfolding equation of `promiseAll` on a non-empty list. -/
theorem promiseAll_cons {ε α : Type} (x : Except ε α) (xs : List (Except ε α)) :
    promiseAll (x :: xs) =
      match x, promiseAll xs with
      | .ok a, .ok rest => .ok (a :: rest)
      | .error e, _ => .error e
      | .ok _, .error e => .error e := rfl

/-- `Promise.all` preserves the number of promises when it fulfils. -/
theorem promiseAll_ok_length {ε α : Type} :
    ∀ (l : List (Except ε α)) (out : List α), promiseAll l = .ok out → out.length = l.length := by
  intro l
  induction l with
  | nil => intro out h; cases h; rfl
  | cons x xs ih =>
    intro out h
    rw [promiseAll_cons] at h
    cases x with
    | error e => cases h
    | ok a =>
      cases hxs : promiseAll xs with
      | error e => rw [hxs] at h; cases h
      | ok rest =>
        rw [hxs] at h
        cases h
        simp [ih rest hxs]

/-- `Promise.all` fulfils when every promise fulfils. -/
theorem promiseAll_ok_of_all {ε α : Type} :
    ∀ (l : List (Except ε α)), (∀ x ∈ l, ∃ a, x = .ok a) →
      ∃ out, promiseAll l = .ok out := by
  intro l
  induction l with
  | nil => intro _; exact ⟨[], rfl⟩
  | cons x xs ih =>
    intro h
    obtain ⟨a, ha⟩ := h x (List.mem_cons_self x xs)
    obtain ⟨rest, hrest⟩ := ih (fun y hy => h y (List.mem_cons_of_mem x hy))
    exact ⟨a :: rest, by rw [promiseAll_cons, ha, hrest]⟩

/-- Every element of a fulfilled `Promise.all` comes from one of the
promises. -/
theorem promiseAll_mem {ε α : Type} :
    ∀ (l : List (Except ε α)) (out : List α), promiseAll l = .ok out →
      ∀ b ∈ out, (.ok b : Except ε α) ∈ l := by
  intro l
  induction l with
  | nil => intro out h; cases h; intro b hb; cases hb
  | cons x xs ih =>
    intro out h b hb
    rw [promiseAll_cons] at h
    cases x with
    | error e => cases h
    | ok a =>
      cases hxs : promiseAll xs with
      | error e => rw [hxs] at h; cases h
      | ok rest =>
        rw [hxs] at h
        cases h
        rcases List.mem_cons.mp hb with hb | hb
        · exact hb ▸ List.mem_cons_self _ _
        · exact List.mem_cons_of_mem _ (ih rest hxs b hb)

/-- The manager per-token closer never rejects. -/
theorem closeOneConnectionE_ok (token : Token) (beh : TokenBehavior) (cfg : ShutdownConfigN) :
    ∃ r, closeOneConnectionE token beh cfg = .ok r :=
  tryCatch_ok _ _ (fun _ => ⟨_, rfl⟩)

/-- Exhaustive case analysis of the manager per-token closer: resolution
throws, invalid handle, race fulfilled, race rejected. -/
theorem closeOneConnectionE_cases (token : Token) (beh : TokenBehavior) (cfg : ShutdownConfigN) :
    (∃ e, beh.resolved = .error e ∧
      closeOneConnectionE token beh cfg =
        .ok (false, 0, [Event.failed (tokenToString token)
              (some (normalizeThrown e).message) (some 0)])) ∨
    (∃ w, beh.resolved = .ok w ∧ isValidConnectionWrapper w = false ∧
      closeOneConnectionE token beh cfg =
        .ok (false, 0, [Event.failed (tokenToString token)
              (some "Invalid or missing wrapper") (some 0)])) ∨
    (∃ w t r, beh.resolved = .ok w ∧ isValidConnectionWrapper w = true ∧
      withTimeout (retryAsync beh (some cfg.forceClose) cfg.retryAttempts 100) cfg.timeoutMs
          ("close " ++ tokenToString token) = (t, .ok r) ∧
      closeOneConnectionE token beh cfg =
        .ok (true, t, [Event.closed (tokenToString token) t])) ∨
    (∃ w t e, beh.resolved = .ok w ∧ isValidConnectionWrapper w = true ∧
      withTimeout (retryAsync beh (some cfg.forceClose) cfg.retryAttempts 100) cfg.timeoutMs
          ("close " ++ tokenToString token) = (t, .error e) ∧
      closeOneConnectionE token beh cfg =
        .ok (false, t, [Event.failed (tokenToString token)
              (some (normalizeThrown e).message) (some t)])) := by
  cases hres : beh.resolved with
  | error e =>
    refine Or.inl ⟨e, rfl, ?_⟩
    unfold closeOneConnectionE
    rw [hres]
    rfl
  | ok w =>
    cases hv : isValidConnectionWrapper w with
    | false =>
      refine Or.inr (Or.inl ⟨w, rfl, hv, ?_⟩)
      unfold closeOneConnectionE
      rw [hres]
      simp only [tryCatch, hv]
      rfl
    | true =>
      rcases hrace : withTimeout (retryAsync beh (some cfg.forceClose) cfg.retryAttempts 100)
          cfg.timeoutMs ("close " ++ tokenToString token) with ⟨t, v⟩
      cases v with
      | ok r =>
        refine Or.inr (Or.inr (Or.inl ⟨w, t, r, rfl, hv, rfl, ?_⟩))
        unfold closeOneConnectionE
        rw [hres]
        simp only [tryCatch, hv, hrace]
        rfl
      | error e =>
        refine Or.inr (Or.inr (Or.inr ⟨w, t, e, rfl, hv, rfl, ?_⟩))
        unfold closeOneConnectionE
        rw [hres]
        simp only [tryCatch, hv, hrace]
        rfl

/-- Exhaustive case analysis of the service per-token closer: invalid
wrapper, race fulfilled with a successful retry result, race fulfilled with
a failed retry result, race rejected (timeout). -/
theorem closeConnectionE_cases (token : Token) (beh : TokenBehavior) (tm ra : Nat) :
    (getWrapper beh = none ∧
      closeConnectionE token beh tm ra =
        .ok ({ token := token, success := false, durationMs := 0
             , error := some (mkError "Invalid or missing wrapper") }, [])) ∨
    (∃ w t r, getWrapper beh = some w ∧
      withTimeout (retryAsync beh none ra 100) tm ("close connection " ++ tokenToString token) =
        (t, .ok r) ∧ r.success = true ∧
      closeConnectionE token beh tm ra =
        .ok ({ token := token, success := true, durationMs := t, error := none },
             [Event.closed (tokenToString token) t])) ∨
    (∃ w t r, getWrapper beh = some w ∧
      withTimeout (retryAsync beh none ra 100) tm ("close connection " ++ tokenToString token) =
        (t, .ok r) ∧ r.success = false ∧
      closeConnectionE token beh tm ra =
        .ok ({ token := token, success := false, durationMs := t, error := r.error },
             [Event.failed (tokenToString token) (r.error.map (fun e => e.message)) none])) ∨
    (∃ w t e, getWrapper beh = some w ∧
      withTimeout (retryAsync beh none ra 100) tm ("close connection " ++ tokenToString token) =
        (t, .error e) ∧
      closeConnectionE token beh tm ra =
        .ok ({ token := token, success := false, durationMs := t
             , error := some (normalizeThrown e) },
             [Event.failed (tokenToString token) (some (normalizeThrown e).message) (some t)])) := by
  cases hw : getWrapper beh with
  | none =>
    refine Or.inl ⟨rfl, ?_⟩
    unfold closeConnectionE
    rw [hw]
  | some w =>
    rcases hrace : withTimeout (retryAsync beh none ra 100) tm
        ("close connection " ++ tokenToString token) with ⟨t, v⟩
    cases v with
    | ok r =>
      cases hs : r.success with
      | true =>
        refine Or.inr (Or.inl ⟨w, t, r, rfl, rfl, hs, ?_⟩)
        unfold closeConnectionE
        rw [hw]
        simp only [tryCatch, hrace, hs]
        rfl
      | false =>
        refine Or.inr (Or.inr (Or.inl ⟨w, t, r, rfl, rfl, hs, ?_⟩))
        unfold closeConnectionE
        rw [hw]
        simp only [tryCatch, hrace, hs]
        rfl
    | error e =>
      refine Or.inr (Or.inr (Or.inr ⟨w, t, e, rfl, rfl, ?_⟩))
      unfold closeConnectionE
      rw [hw]
      simp only [tryCatch, hrace]

/-- The service per-token closer never rejects. -/
theorem closeConnectionE_ok (token : Token) (beh : TokenBehavior) (tm ra : Nat) :
    ∃ r, closeConnectionE token beh tm ra = .ok r := by
  rcases closeConnectionE_cases token beh tm ra with
    ⟨_, h⟩ | ⟨w, t, r, _, _, _, h⟩ | ⟨w, t, r, _, _, _, h⟩ | ⟨w, t, e, _, _, h⟩ <;>
    exact ⟨_, h⟩

/-- `getWrapper` is `none` when resolution throws. -/
theorem getWrapper_of_error (beh : TokenBehavior) (e : JsThrown)
    (h : beh.resolved = .error e) : getWrapper beh = none := by
  unfold getWrapper
  rw [h]

/-- `getWrapper` is `none` when the resolved value fails the guards
validator. -/
theorem getWrapper_of_invalid (beh : TokenBehavior) (w : JsValue)
    (h : beh.resolved = .ok w) (hv : isValidConnectionWrapperG w = false) :
    getWrapper beh = none := by
  unfold getWrapper
  rw [h]
  simp [hv]

/-- The batch of service closers fulfils and has one result per token. -/
theorem closeAllConnectionsE_ok (tokens : List Token) (env : Token → TokenBehavior)
    (tm ra : Nat) :
    ∃ rs, closeAllConnectionsE tokens env tm ra = .ok rs ∧ rs.length = tokens.length := by
  have hall : ∀ x ∈ tokens.map (fun t => closeConnectionE t (env t) tm ra),
      ∃ a, x = .ok a := by
    intro x hx
    obtain ⟨t, _, rfl⟩ := List.mem_map.mp hx
    exact closeConnectionE_ok t (env t) tm ra
  obtain ⟨rs, hrs⟩ := promiseAll_ok_of_all _ hall
  refine ⟨rs, hrs, ?_⟩
  have hl := promiseAll_ok_length _ _ hrs
  simpa using hl

/-- The service orchestrator never rejects, for every batch outcome. -/
theorem executeShutdownSE_ok (tokens : List Token) (cfg : ShutdownConfigN)
    (batch : Except JsThrown (List CloseResultL)) (elapsedMs : Nat) :
    ∃ r, executeShutdownSE tokens cfg batch elapsedMs = .ok r := by
  unfold executeShutdownSE
  split
  · exact ⟨_, rfl⟩
  · exact tryCatch_ok _ _ (fun _ => ⟨_, rfl⟩)

/-- The manager orchestrator never rejects. -/
theorem executeShutdownME_ok (tokens : List Token) (env : Token → TokenBehavior)
    (cfg : ShutdownConfigN) :
    ∃ r, executeShutdownME tokens env cfg = .ok r := by
  unfold executeShutdownME
  split
  · exact ⟨_, rfl⟩
  · exact tryCatch_ok _ _ (fun _ => ⟨_, rfl⟩)

/-- The manager per-token closer logs only closed or failed records, never
the batch timeout record. -/
theorem closeOneConnectionE_no_timeout_event (token : Token) (beh : TokenBehavior)
    (cfg : ShutdownConfigN) (r : Bool × Nat × List Event)
    (h : closeOneConnectionE token beh cfg = .ok r) :
    ∀ tm, Event.timeout tm ∉ r.2.2 := by
  intro tm
  rcases closeOneConnectionE_cases token beh cfg with
    ⟨e, _, hr⟩ | ⟨w, _, _, hr⟩ | ⟨w, t, rr, _, _, _, hr⟩ | ⟨w, t, e, _, _, _, hr⟩ <;>
    { rw [hr] at h; cases h; simp }

end Shutdown

namespace Shutdown

/-! ### Claims C1, C2, C3 -/

/-- C1: for every non-empty token list, `executeShutdown` returns a
`ShutdownSummary` with `totalConnections` equal to the number of tokens and
`successCount + failureCount = totalConnections`, on the normal completion
path and on the timeout/degradation path alike.  First conjunct: the
service orchestrator, over every outcome of the guarded batch await whose
fulfilment carries one result per token; second conjunct: the manager
orchestrator; third conjunct: the service batch indeed yields one result
per token. -/
theorem C1_summary_invariant :
    (∀ (tokens : List Token) (cfg : ShutdownConfigN)
        (batch : Except JsThrown (List CloseResultL)) (elapsedMs : Nat)
        (s : ShutdownSummary) (evs : List Event),
        tokens ≠ [] →
        (∀ rs, batch = .ok rs → rs.length = tokens.length) →
        executeShutdownSE tokens cfg batch elapsedMs = .ok (s, evs) →
        s.totalConnections = tokens.length ∧
          s.successCount + s.failureCount = s.totalConnections) ∧
    (∀ (tokens : List Token) (env : Token → TokenBehavior) (cfg : ShutdownConfigN)
        (s : ShutdownSummary) (evs : List Event),
        tokens ≠ [] →
        executeShutdownME tokens env cfg = .ok (s, evs) →
        s.totalConnections = tokens.length ∧
          s.successCount + s.failureCount = s.totalConnections) ∧
    (∀ (tokens : List Token) (env : Token → TokenBehavior) (tm ra : Nat)
        (rs : List (CloseResultL × List Event)),
        closeAllConnectionsE tokens env tm ra = .ok rs → rs.length = tokens.length) := by
  refine ⟨?_, ?_, ?_⟩
  · intro tokens cfg batch elapsed s evs hne hlen hrun
    have hlen0 : ¬ tokens.length = 0 := by simpa using hne
    unfold executeShutdownSE at hrun
    rw [if_neg hlen0] at hrun
    cases batch with
    | ok results =>
      simp only [tryCatch] at hrun
      injection hrun with h
      injection h with h1 h2
      subst h1
      have hc : (results.filter (fun r => r.success)).length ≤ results.length :=
        List.length_filter_le _ _
      have hr : results.length = tokens.length := hlen results rfl
      refine ⟨rfl, ?_⟩
      show (countResults results).1 + (countResults results).2 = tokens.length
      simp only [countResults]
      omega
    | error e =>
      simp only [tryCatch] at hrun
      injection hrun with h
      injection h with h1 h2
      subst h1
      exact ⟨rfl, by show 0 + tokens.length = tokens.length; omega⟩
  · intro tokens env cfg s evs hne hrun
    have hlen0 : ¬ tokens.length = 0 := by simpa using hne
    unfold executeShutdownME at hrun
    rw [if_neg hlen0] at hrun
    cases hP : promiseAll (tokens.map fun t => closeOneConnectionE t (env t) cfg) with
    | ok rs =>
      rw [hP] at hrun
      simp only [tryCatch] at hrun
      injection hrun with h
      injection h with h1 h2
      subst h1
      have hrs : rs.length = tokens.length := by
        have hl := promiseAll_ok_length _ _ hP
        simpa using hl
      have hc : ((rs.map (fun r => r.1)).filter (fun b => b)).length ≤ rs.length := by
        have hf := List.length_filter_le (fun b => b) (rs.map (fun r => r.1))
        simpa using hf
      refine ⟨rfl, ?_⟩
      show ((rs.map (fun r => r.1)).filter (fun b => b)).length +
          (tokens.length - ((rs.map (fun r => r.1)).filter (fun b => b)).length) = tokens.length
      omega
    | error p =>
      rw [hP] at hrun
      simp only [tryCatch] at hrun
      injection hrun with h
      injection h with h1 h2
      subst h1
      exact ⟨rfl, by show 0 + tokens.length = tokens.length; omega⟩
  · intro tokens env tm ra rs h
    unfold closeAllConnectionsE at h
    have hl := promiseAll_ok_length _ _ h
    simpa using hl

/-- Witness for C1 at a concrete one-token batch. -/
theorem C1_summary_invariant_witness :
    ({ totalConnections := 1, successCount := 1, failureCount := 0, durationMs := 5 } :
        ShutdownSummary).totalConnections = [Token.str "a"].length ∧
    ({ totalConnections := 1, successCount := 1, failureCount := 0, durationMs := 5 } :
        ShutdownSummary).successCount +
      ({ totalConnections := 1, successCount := 1, failureCount := 0, durationMs := 5 } :
        ShutdownSummary).failureCount =
      ({ totalConnections := 1, successCount := 1, failureCount := 0, durationMs := 5 } :
        ShutdownSummary).totalConnections :=
  C1_summary_invariant.1 [Token.str "a"]
    { timeoutMs := 10, retryAttempts := 2, forceClose := false }
    (.ok [{ token := .str "a", success := true, durationMs := 3, error := none }]) 5
    { totalConnections := 1, successCount := 1, failureCount := 0, durationMs := 5 }
    [Event.start 1, Event.complete 1 1 0 5]
    (by decide)
    (by intro rs h; injection h with h2; subst h2; rfl)
    rfl

/-- C2: the outer timeout guard around the batch await.  Service variant
(`service.ts`): whenever the guarded batch await rejects with a
`ShutdownTimeoutError`, the orchestrator emits the `shutdown.timeout`
event and returns a summary with `successCount = 0` and `failureCount`
equal to the token count.  Manager variant (`manager.ts`): the code awaits
the bare `Promise.all` — despite the source comment announcing a global
timeout safety net — and since the per-token closer never rejects, the
degraded path is dead and no `shutdown.timeout` event is ever emitted. -/
theorem C2_outer_timeout_guard :
    (∀ (tokens : List Token) (cfg : ShutdownConfigN) (e : JsThrown) (elapsedMs : Nat)
        (s : ShutdownSummary) (evs : List Event),
        tokens ≠ [] → isTimeoutThrown e = true →
        executeShutdownSE tokens cfg (.error e) elapsedMs = .ok (s, evs) →
        s = { totalConnections := tokens.length, successCount := 0
            , failureCount := tokens.length, durationMs := elapsedMs } ∧
          evs = [Event.start tokens.length, Event.timeout cfg.timeoutMs]) ∧
    (∀ (tokens : List Token) (env : Token → TokenBehavior) (cfg : ShutdownConfigN)
        (s : ShutdownSummary) (evs : List Event),
        executeShutdownME tokens env cfg = .ok (s, evs) →
        ∀ tm, Event.timeout tm ∉ evs) := by
  constructor
  · intro tokens cfg e elapsed s evs hne hto hrun
    have hlen0 : ¬ tokens.length = 0 := by simpa using hne
    unfold executeShutdownSE at hrun
    rw [if_neg hlen0] at hrun
    simp only [tryCatch, hto, if_true] at hrun
    injection hrun with h
    injection h with h1 h2
    exact ⟨h1.symm, by rw [← h2]; rfl⟩
  · intro tokens env cfg s evs hrun tm
    by_cases hlen0 : tokens.length = 0
    · unfold executeShutdownME at hrun
      rw [if_pos hlen0] at hrun
      injection hrun with h
      injection h with h1 h2
      subst h2
      simp
    · unfold executeShutdownME at hrun
      rw [if_neg hlen0] at hrun
      obtain ⟨rs, hP⟩ := promiseAll_ok_of_all
        (tokens.map (fun t => closeOneConnectionE t (env t) cfg))
        (by
          intro x hx
          obtain ⟨t, _, rfl⟩ := List.mem_map.mp hx
          exact closeOneConnectionE_ok t (env t) cfg)
      rw [hP] at hrun
      simp only [tryCatch] at hrun
      injection hrun with h
      injection h with h1 h2
      subst h2
      intro hmem
      rw [List.mem_append, List.mem_append] at hmem
      rcases hmem with (hmem | hmem) | hmem
      · simp at hmem
      · obtain ⟨r, hr, hmem2⟩ := List.mem_flatMap.mp hmem
        have hok : (Except.ok r : Except (JsThrown × Nat) (Bool × Nat × List Event)) ∈
            tokens.map (fun t => closeOneConnectionE t (env t) cfg) :=
          promiseAll_mem _ _ hP r hr
        obtain ⟨t, _, ht⟩ := List.mem_map.mp hok
        exact closeOneConnectionE_no_timeout_event t (env t) cfg r ht tm hmem2
      · simp at hmem

/-- Witness for C2 at a concrete timed-out batch. -/
theorem C2_outer_timeout_guard_witness :
    ({ totalConnections := 1, successCount := 0, failureCount := 1, durationMs := 100 } :
        ShutdownSummary) =
      { totalConnections := [Token.str "a"].length, successCount := 0
      , failureCount := [Token.str "a"].length, durationMs := 100 } ∧
    [Event.start 1, Event.timeout 100] =
      [Event.start [Token.str "a"].length,
       Event.timeout ({ timeoutMs := 100, retryAttempts := 2, forceClose := false } :
         ShutdownConfigN).timeoutMs] :=
  C2_outer_timeout_guard.1 [Token.str "a"]
    { timeoutMs := 100, retryAttempts := 2, forceClose := false }
    (.errObj (shutdownTimeoutError "shutdown" 100)) 100
    { totalConnections := 1, successCount := 0, failureCount := 1, durationMs := 100 }
    [Event.start 1, Event.timeout 100]
    (by decide) rfl rfl

/-- C3: the resource closers never raise and the orchestrators never
reject: every resolver outcome, close behaviour, retry exhaustion and
timeout rejection is caught and turned into a returned result value. -/
theorem C3_never_raises :
    (∀ (token : Token) (beh : TokenBehavior) (timeoutMs retryAttempts : Nat),
        ∃ r, closeConnectionE token beh timeoutMs retryAttempts = .ok r) ∧
    (∀ (token : Token) (beh : TokenBehavior) (cfg : ShutdownConfigN),
        ∃ r, closeOneConnectionE token beh cfg = .ok r) ∧
    (∀ (tokens : List Token) (cfg : ShutdownConfigN)
        (batch : Except JsThrown (List CloseResultL)) (elapsedMs : Nat),
        ∃ r, executeShutdownSE tokens cfg batch elapsedMs = .ok r) ∧
    (∀ (tokens : List Token) (env : Token → TokenBehavior) (cfg : ShutdownConfigN),
        ∃ r, executeShutdownME tokens env cfg = .ok r) :=
  ⟨closeConnectionE_ok, closeOneConnectionE_ok, executeShutdownSE_ok, executeShutdownME_ok⟩

end Shutdown

namespace Shutdown

/-! ### Claims C4, C5 -/

/-- C4: force-flag divergence, evaluated at a valid handle whose close
succeeds exactly when invoked with the argument `true`, under a
configuration with `forceClose = true`.  The manager closer passes
`config.forceClose` to `close` and succeeds after one 1 ms attempt; the
service closer invokes `close()` with no argument, so both attempts are
rejected and it reports failure after 102 ms (1 ms + 100 ms backoff +
1 ms) — the configured flag is not passed as the claim states. -/
theorem C4_force_flag :
    closeConnectionE (.str "a") beh4 1000 2 =
      .ok ({ token := .str "a", success := false, durationMs := 102
           , error := some (mkError "force required") },
           [Event.failed "a" (some "force required") none]) ∧
    closeOneConnectionE (.str "a") beh4 cfg4 =
      .ok (true, 1, [Event.closed "a" 1]) :=
  ⟨rfl, rfl⟩

/-- C5 counterexample: the value `{ close: function }` is a non-null object
exposing a callable `close` member, yet both code validators reject it,
because they additionally require a `client` property (a requirement the
guards test suite asserts). -/
theorem C5_counterexample :
    isValidConnectionWrapper (.vObj [("close", .vFunc 0)]) = false ∧
    isValidConnectionWrapperG (.vObj [("close", .vFunc 0)]) = false ∧
    specValidHandle (.vObj [("close", .vFunc 0)]) = true :=
  ⟨rfl, rfl, rfl⟩

/-- C5 (amended): both validators accept a value exactly when it is a
non-null object exposing a callable `close` member AND carrying a `client`
property; the two variants agree on every value. -/
theorem C5_handle_validator :
    ∀ v : JsValue,
      isValidConnectionWrapper v = (specValidHandle v && jsHasProp v "client") ∧
      isValidConnectionWrapperG v = isValidConnectionWrapper v := by
  intro v
  cases v with
  | vObj fs =>
    refine ⟨rfl, ?_⟩
    unfold isValidConnectionWrapperG isValidConnectionWrapper
    simp only [jsHasProp, jsPropTypeof, jsTypeof, isNullValue, isUndefinedValue]
    cases h1 : hasField fs "close" with
    | false => simp
    | true =>
      cases h2 : getField fs "close" with
      | none => simp
      | some x =>
        rcases Bool.eq_false_or_eq_true (hasField fs "client") with h4 | h4 <;>
          cases x <;> simp [h4]
  | vUndefined => exact ⟨rfl, rfl⟩
  | vNull => exact ⟨rfl, rfl⟩
  | vBool b => exact ⟨rfl, rfl⟩
  | vNum n => exact ⟨rfl, rfl⟩
  | vStr s => exact ⟨rfl, rfl⟩
  | vSym d => exact ⟨rfl, rfl⟩
  | vFunc id => exact ⟨rfl, rfl⟩

end Shutdown

namespace Shutdown

/-! ### Claim C6 -/

/-- The exponential backoff schedule starting at attempt index `a`:
`[d * 2 ^ a, d * 2 ^ (a + 1), ...]`, `k` entries. -/
def expBackoffList (d a k : Nat) : List Nat :=
  (List.range k).map (fun i => d * 2 ^ (a + i))

/-- Unfolding of the backoff schedule at its head. -/
theorem expBackoffList_succ (d a k : Nat) :
    expBackoffList d a (k + 1) = d * 2 ^ a :: expBackoffList d (a + 1) k := by
  unfold expBackoffList
  rw [List.range_succ_eq_map, List.map_cons, List.map_map]
  refine congrArg₂ List.cons ?_ ?_
  · norm_num
  · refine List.map_congr_left (fun i _ => ?_)
    show d * 2 ^ (a + (i + 1)) = d * 2 ^ (a + 1 + i)
    rw [show a + (i + 1) = a + 1 + i from by omega]

/-- The backoff schedule from attempt 0 matches the 0-indexed form. -/
theorem expBackoffList_zero (d k : Nat) :
    expBackoffList d 0 k = (List.range k).map (fun i => d * 2 ^ i) := by
  unfold expBackoffList
  apply List.map_congr_left
  intro i _
  rw [Nat.zero_add]

/-- The retry loop from attempt `a`: if the operation fails on attempts
`a, ..., a + k - 1` and succeeds on attempt `a + k`, the loop returns the
success with attempt count `a + k + 1` after awaiting exactly the backoff
delays of the failed attempts. -/
theorem withRetryAux_succeeds {α : Type} (op : Nat → Except JsThrown α) (M d : Nat) (v : α)
    (errf : Nat → JsThrown) :
    ∀ (k a r : Nat) (le : Option JsError), a + r = M → k < r →
      (∀ i, i < k → op (a + i) = .error (errf (a + i))) → op (a + k) = .ok v →
      withRetryAux op M d a r le =
        ({ success := true, value := some v, error := none, attempts := a + k + 1 },
         expBackoffList d a k) := by
  intro k
  induction k with
  | zero =>
    intro a r le hsum hk hfail hsucc
    obtain ⟨r2, rfl⟩ : ∃ r2, r = r2 + 1 := ⟨r - 1, by omega⟩
    rw [show a + 0 = a from rfl] at hsucc
    unfold withRetryAux
    simp only [hsucc]
    rfl
  | succ k ih =>
    intro a r le hsum hk hfail hsucc
    obtain ⟨r2, rfl⟩ : ∃ r2, r = r2 + 1 := ⟨r - 1, by omega⟩
    have hopa : op a = .error (errf a) := by
      have h0 := hfail 0 (by omega)
      simpa using h0
    unfold withRetryAux
    simp only [hopa]
    have hne : ¬ a = M - 1 := by omega
    rw [if_neg hne]
    have ihr := ih (a + 1) r2 (some (normalizeThrown (errf a))) (by omega) (by omega)
      (fun i hi => by
        have hh := hfail (i + 1) (by omega)
        have he : a + (i + 1) = a + 1 + i := by omega
        rw [he] at hh
        exact hh)
      (by
        have he : a + (k + 1) = a + 1 + k := by omega
        rw [← he]
        exact hsucc)
    rw [ihr, expBackoffList_succ]
    have hatt : a + 1 + k + 1 = a + (k + 1) + 1 := by omega
    rw [hatt]

/-- The retry loop from attempt `a` when every attempt up to `M` fails:
the loop returns the failure normalised from the last thrown value, with
attempt count `M`, after awaiting the backoff delays of the non-final
failed attempts only. -/
theorem withRetryAux_exhausts {α : Type} (op : Nat → Except JsThrown α) (M d : Nat)
    (errf : Nat → JsThrown) :
    ∀ (r a : Nat) (le : Option JsError), a + r = M → 0 < r →
      (∀ i, a ≤ i → i < M → op i = .error (errf i)) →
      withRetryAux op M d a r le =
        ({ success := false, value := none
         , error := some (normalizeThrown (errf (M - 1))), attempts := M },
         expBackoffList d a (M - 1 - a)) := by
  intro r
  induction r with
  | zero =>
    intro a le hsum hpos hfail
    exact absurd hpos (by omega)
  | succ r2 ih =>
    intro a le hsum hpos hfail
    have hopa : op a = .error (errf a) := hfail a (Nat.le_refl a) (by omega)
    unfold withRetryAux
    simp only [hopa]
    by_cases ha : a = M - 1
    · rw [if_pos ha, ha]
      rw [show M - 1 - (M - 1) = 0 from by omega]
      rfl
    · rw [if_neg ha]
      have hr2 : 0 < r2 := by omega
      rw [ih (a + 1) (some (normalizeThrown (errf a))) (by omega) hr2
        (fun i h1 h2 => hfail i (by omega) h2)]
      rw [show M - 1 - a = (M - 1 - (a + 1)) + 1 from by omega, expBackoffList_succ]

/-- The refactored executor: failing attempts `0, ..., k - 1` followed by
a success on attempt `k` return immediately with the value and attempt
count `k + 1`, having awaited exactly the delays `delayMs * 2 ^ i` for
`i < k`. -/
theorem withRetry_succeeds {α : Type} (op : Nat → Except JsThrown α) (M d k : Nat) (v : α)
    (errf : Nat → JsThrown) (hk : k < M)
    (hfail : ∀ i, i < k → op i = .error (errf i)) (hsucc : op k = .ok v) :
    withRetry op M d =
      ({ success := true, value := some v, error := none, attempts := k + 1 },
       (List.range k).map (fun i => d * 2 ^ i)) := by
  have h := withRetryAux_succeeds op M d v errf k 0 M none (by omega) hk
    (fun i hi => by simpa using hfail i hi) (by simpa using hsucc)
  unfold withRetry
  rw [h, expBackoffList_zero]
  norm_num

/-- The refactored executor when every attempt fails: failure carrying the
normalised last error and attempt count `maxAttempts`, with no delay after
the final attempt. -/
theorem withRetry_exhausts {α : Type} (op : Nat → Except JsThrown α) (M d : Nat)
    (errf : Nat → JsThrown) (hM : 0 < M)
    (hfail : ∀ i, i < M → op i = .error (errf i)) :
    withRetry op M d =
      ({ success := false, value := none
       , error := some (normalizeThrown (errf (M - 1))), attempts := M },
       (List.range (M - 1)).map (fun i => d * 2 ^ i)) := by
  have h := withRetryAux_exhausts op M d errf M 0 none (by omega) hM
    (fun i _ h2 => hfail i h2)
  unfold withRetry
  rw [h, show M - 1 - 0 = M - 1 from by omega, expBackoffList_zero]

/-- The monolithic retry loop computes the same control flow as the
refactored loop at base delay `SHUTDOWN_DEFAULTS.RETRY_DELAY_MS`, with the
attempt count dropped from the result. -/
theorem withRetryUAux_projects {α : Type} (op : Nat → Except JsThrown α) (M : Nat) :
    ∀ (r a : Nat) (le : Option JsError),
      withRetryUAux op M a r le =
        ({ success := (withRetryAux op M defaultRetryDelayMs a r le).1.success
         , value := (withRetryAux op M defaultRetryDelayMs a r le).1.value
         , error := (withRetryAux op M defaultRetryDelayMs a r le).1.error },
         (withRetryAux op M defaultRetryDelayMs a r le).2) := by
  intro r
  induction r with
  | zero => intro a le; rfl
  | succ r2 ih =>
    intro a le
    unfold withRetryUAux withRetryAux
    cases hop : op a with
    | ok v => rfl
    | error e =>
      simp only []
      by_cases ha : a = M - 1
      · simp only [if_pos ha]
      · simp only [if_neg ha, ih (a + 1) (some (normalizeThrown e))]

/-- Entry-point form of `withRetryUAux_projects`. -/
theorem withRetryU_projects {α : Type} (op : Nat → Except JsThrown α) (M : Nat) :
    withRetryU op M =
      ({ success := (withRetry op M defaultRetryDelayMs).1.success
       , value := (withRetry op M defaultRetryDelayMs).1.value
       , error := (withRetry op M defaultRetryDelayMs).1.error },
       (withRetry op M defaultRetryDelayMs).2) :=
  withRetryUAux_projects op M M 0 none

/-- C6 counterexample: on the same run — one rejection with a non-Error
value, then a success — the refactored executor returns the value together
with the attempt count 2, while the complete result record of the
monolithic `shutdown/utilities.ts` executor is `{ success, value, error }`:
it has no attempt count to return, refuting the claim for that named
source. -/
theorem C6_counterexample :
    (withRetryU (fun i => if i = 0 then .error (.nonError "boom") else .ok 7) 3).1 =
      { success := true, value := some 7, error := none } ∧
    (withRetry (fun i => if i = 0 then .error (.nonError "boom") else .ok 7) 3 100).1 =
      { success := true, value := some 7, error := none, attempts := 2 } :=
  ⟨rfl, rfl⟩

/-- C6 (amended): the retry executor.  Conjuncts 1 to 3, the refactored
`shutdown/retry.ts` executor: a success on attempt `k` after `k` failures
returns immediately with the value and the attempt count `k + 1`, having
awaited exactly the delays `delayMs * 2 ^ i` for `i < k`; exhaustion
returns a failure carrying the normalised last error and attempt count
`maxAttempts` with no delay after the final attempt; `maxAttempts = 0`
performs zero attempts and returns failure with no error set.  Conjunct 4:
thrown values that are not `Error` instances are wrapped in an `Error`
whose message is their string representation (both variants normalise the
same way).  Conjuncts 5 to 7, the monolithic `shutdown/utilities.ts`
executor: the same success, exhaustion and zero-attempt behaviour at the
fixed base delay `SHUTDOWN_DEFAULTS.RETRY_DELAY_MS`, except that its
result carries no attempt count.  Conjunct 8: that fixed base delay is
100. -/
theorem C6_retry_executor :
    (∀ (α : Type) (op : Nat → Except JsThrown α) (M d k : Nat) (v : α)
        (errf : Nat → JsThrown), k < M →
        (∀ i, i < k → op i = .error (errf i)) → op k = .ok v →
        withRetry op M d =
          ({ success := true, value := some v, error := none, attempts := k + 1 },
           (List.range k).map (fun i => d * 2 ^ i))) ∧
    (∀ (α : Type) (op : Nat → Except JsThrown α) (M d : Nat) (errf : Nat → JsThrown),
        0 < M → (∀ i, i < M → op i = .error (errf i)) →
        withRetry op M d =
          ({ success := false, value := none
           , error := some (normalizeThrown (errf (M - 1))), attempts := M },
           (List.range (M - 1)).map (fun i => d * 2 ^ i))) ∧
    (∀ (α : Type) (op : Nat → Except JsThrown α) (d : Nat),
        withRetry op 0 d =
          ({ success := false, value := none, error := none, attempts := 0 }, [])) ∧
    (∀ s, normalizeThrown (.nonError s) = mkError s ∧ (mkError s).message = s) ∧
    (∀ (α : Type) (op : Nat → Except JsThrown α) (M k : Nat) (v : α)
        (errf : Nat → JsThrown), k < M →
        (∀ i, i < k → op i = .error (errf i)) → op k = .ok v →
        withRetryU op M =
          ({ success := true, value := some v, error := none },
           (List.range k).map (fun i => defaultRetryDelayMs * 2 ^ i))) ∧
    (∀ (α : Type) (op : Nat → Except JsThrown α) (M : Nat) (errf : Nat → JsThrown),
        0 < M → (∀ i, i < M → op i = .error (errf i)) →
        withRetryU op M =
          ({ success := false, value := none
           , error := some (normalizeThrown (errf (M - 1))) },
           (List.range (M - 1)).map (fun i => defaultRetryDelayMs * 2 ^ i))) ∧
    (∀ (α : Type) (op : Nat → Except JsThrown α),
        withRetryU op 0 = ({ success := false, value := none, error := none }, [])) ∧
    defaultRetryDelayMs = 100 := by
  refine ⟨?_, ?_, ?_, ?_, ?_, ?_, ?_, rfl⟩
  · intro α op M d k v errf hk hfail hsucc
    exact withRetry_succeeds op M d k v errf hk hfail hsucc
  · intro α op M d errf hM hfail
    exact withRetry_exhausts op M d errf hM hfail
  · intro α op d
    rfl
  · intro s
    exact ⟨rfl, rfl⟩
  · intro α op M k v errf hk hfail hsucc
    rw [withRetryU_projects,
      withRetry_succeeds op M defaultRetryDelayMs k v errf hk hfail hsucc]
  · intro α op M errf hM hfail
    rw [withRetryU_projects, withRetry_exhausts op M defaultRetryDelayMs errf hM hfail]
  · intro α op
    rfl

/-- Witness for C6: an operation rejecting once with a non-Error value and
then succeeding, and an operation that always rejects, run through the
refactored executor; the first also run through the monolithic
executor. -/
theorem C6_retry_executor_witness :
    withRetry (fun i => if i = 0 then .error (.nonError "boom") else .ok 7) 3 50 =
      ({ success := true, value := some 7, error := none, attempts := 2 }, [50]) ∧
    withRetry (fun _ => (.error (.nonError "x") : Except JsThrown Nat)) 2 50 =
      ({ success := false, value := none, error := some (mkError "x"), attempts := 2 },
       [50]) ∧
    withRetryU (fun i => if i = 0 then .error (.nonError "boom") else .ok 7) 3 =
      ({ success := true, value := some 7, error := none }, [100]) := by
  refine ⟨?_, ?_, ?_⟩
  · rw [C6_retry_executor.1 Nat
      (fun i => if i = 0 then .error (.nonError "boom") else .ok 7) 3 50 1 7
      (fun _ => .nonError "boom") (by omega)
      (by intro i hi; have h0 : i = 0 := by omega
          subst h0; rfl)
      rfl]
    rfl
  · rw [C6_retry_executor.2.1 Nat
      (fun _ => (.error (.nonError "x") : Except JsThrown Nat)) 2 50
      (fun _ => .nonError "x") (by omega) (fun i _ => rfl)]
    rfl
  · rw [C6_retry_executor.2.2.2.2.1 Nat
      (fun i => if i = 0 then .error (.nonError "boom") else .ok 7) 3 1 7
      (fun _ => .nonError "boom") (by omega)
      (by intro i hi; have h0 : i = 0 := by omega
          subst h0; rfl)
      rfl]
    rfl

end Shutdown

namespace Shutdown

/-! ### Claims C7, C8, C9, C10 -/

/-- C7 counterexample: for a token whose resolution throws
`Error("Injection error")`, the manager closer reports the thrown message
in its failure record, not the fixed message the claim states. -/
theorem C7_counterexample :
    closeOneConnectionE (.str "bad") behBad cfg7 =
      .ok (false, 0, [Event.failed "bad" (some "Injection error") (some 0)]) ∧
    "Injection error" ≠ "Invalid or missing wrapper" :=
  ⟨rfl, by decide⟩

/-- C7 (amended): for every token whose resolution throws or yields a
structurally invalid handle, the closer returns immediately with
`success = false` and `durationMs = 0`, and the retried close and the
timeout guard are not invoked (the conclusion is a fixed value, for every
close behaviour, timeout and retry count).  The service closer always
reports the fixed error "Invalid or missing wrapper"; the manager closer
reports that fixed message only for an invalid handle, and reports the
normalised thrown message when resolution itself throws. -/
theorem C7_invalid_wrapper :
    (∀ (token : Token) (beh : TokenBehavior) (tm ra : Nat),
        ((∃ e, beh.resolved = .error e) ∨
          (∃ w, beh.resolved = .ok w ∧ isValidConnectionWrapperG w = false)) →
        closeConnectionE token beh tm ra =
          .ok ({ token := token, success := false, durationMs := 0
               , error := some (mkError "Invalid or missing wrapper") }, [])) ∧
    (∀ (token : Token) (beh : TokenBehavior) (cfg : ShutdownConfigN) (w : JsValue),
        beh.resolved = .ok w → isValidConnectionWrapper w = false →
        closeOneConnectionE token beh cfg =
          .ok (false, 0, [Event.failed (tokenToString token)
                (some "Invalid or missing wrapper") (some 0)])) ∧
    (∀ (token : Token) (beh : TokenBehavior) (cfg : ShutdownConfigN) (e : JsThrown),
        beh.resolved = .error e →
        closeOneConnectionE token beh cfg =
          .ok (false, 0, [Event.failed (tokenToString token)
                (some (normalizeThrown e).message) (some 0)])) := by
  refine ⟨?_, ?_, ?_⟩
  · intro token beh tm ra hbad
    have hw : getWrapper beh = none := by
      rcases hbad with ⟨e, he⟩ | ⟨w, hres, hv⟩
      · exact getWrapper_of_error beh e he
      · exact getWrapper_of_invalid beh w hres hv
    unfold closeConnectionE
    rw [hw]
  · intro token beh cfg w hres hv
    unfold closeOneConnectionE
    rw [hres]
    simp only [tryCatch, hv]
    rfl
  · intro token beh cfg e hres
    unfold closeOneConnectionE
    rw [hres]
    rfl

/-- Witness for C7 at a concrete throwing resolution, with an arbitrary
timeout and retry count showing the close behaviour is not consulted. -/
theorem C7_invalid_wrapper_witness :
    closeConnectionE (.str "x") behBad 7 5 =
      .ok ({ token := .str "x", success := false, durationMs := 0
           , error := some (mkError "Invalid or missing wrapper") }, []) :=
  C7_invalid_wrapper.1 (.str "x") behBad 7 5
    (Or.inl ⟨.errObj (mkError "Injection error"), rfl⟩)

/-- C8: the config resolver accepts the user timeout exactly when it is a
finite number that is at least 0, substituting 10000 otherwise, and treats
negative, NaN and infinite values identically (all rejected); `forceClose`
is the user boolean when present and false otherwise; `retryAttempts` is
the constant 2; the totality of the Lean function is the never-raises
property; both source variants compute the same configuration. -/
theorem C8_config_resolver :
    (∀ (o : Option ConnectionOptionsL) (q : ℚ),
        userTimeoutOf o = some (.vNum (.fin q)) → 0 ≤ q →
        (resolveShutdownConfig o).timeoutMs = .fin q) ∧
    (∀ (o : Option ConnectionOptionsL) (n : JsNum),
        userTimeoutOf o = some (.vNum n) →
        (jsNumGeZero n && jsNumIsFinite n) = false →
        (resolveShutdownConfig o).timeoutMs = .fin 10000) ∧
    (∀ n, (jsNumGeZero n && jsNumIsFinite n) = true ↔ ∃ q, n = .fin q ∧ 0 ≤ q) ∧
    ((jsNumGeZero (.fin (-1)) && jsNumIsFinite (.fin (-1))) = false ∧
      (jsNumGeZero .nan && jsNumIsFinite .nan) = false ∧
      (jsNumGeZero .posInf && jsNumIsFinite .posInf) = false ∧
      (jsNumGeZero .negInf && jsNumIsFinite .negInf) = false) ∧
    (∀ (o : Option ConnectionOptionsL) (v : JsValue),
        userTimeoutOf o = some v → (∀ n, v ≠ .vNum n) →
        (resolveShutdownConfig o).timeoutMs = .fin 10000) ∧
    (∀ o, userTimeoutOf o = none → (resolveShutdownConfig o).timeoutMs = .fin 10000) ∧
    (∀ (o : Option ConnectionOptionsL) (b : Bool),
        o.bind (fun x => x.forceShutdown) = some b →
        (resolveShutdownConfig o).forceClose = b) ∧
    (∀ o, o.bind (fun x => x.forceShutdown) = none →
        (resolveShutdownConfig o).forceClose = false) ∧
    (∀ o, (resolveShutdownConfig o).retryAttempts = 2) ∧
    (∀ o, resolveShutdownConfigC o = resolveShutdownConfig o) := by
  refine ⟨?_, ?_, ?_, ?_, ?_, ?_, ?_, ?_, ?_, ?_⟩
  · intro o q h hq
    simp [resolveShutdownConfig, h, jsNumGeZero, jsNumIsFinite, hq]
  · intro o n h hbad
    simp [resolveShutdownConfig, h, hbad, defaultTimeoutMs]
  · intro n
    cases n <;> simp [jsNumGeZero, jsNumIsFinite]
  · refine ⟨?_, rfl, rfl, rfl⟩
    simp [jsNumGeZero]
  · intro o v h hnn
    unfold resolveShutdownConfig
    rw [h]
    cases v with
    | vNum n => exact absurd rfl (hnn n)
    | vUndefined => rfl
    | vNull => rfl
    | vBool b => rfl
    | vStr s => rfl
    | vSym d => rfl
    | vFunc id => rfl
    | vObj fs => rfl
  · intro o h
    unfold resolveShutdownConfig
    rw [h]
    rfl
  · intro o b h
    simp [resolveShutdownConfig, h]
  · intro o h
    simp [resolveShutdownConfig, h]
  · intro o
    rfl
  · intro o
    unfold resolveShutdownConfig resolveShutdownConfigC
    cases hu : userTimeoutOf o with
    | none => rfl
    | some v =>
      cases v with
      | vNum n =>
        cases n with
        | fin q =>
          by_cases hq : q < 0
          · simp [isValidTimeout, jsNumLtZero, jsNumGeZero, jsNumIsFinite, hq, not_le.mpr hq]
          · simp [isValidTimeout, jsNumLtZero, jsNumGeZero, jsNumIsFinite, hq, not_lt.mp hq]
        | nan => rfl
        | posInf => rfl
        | negInf => rfl
      | vUndefined => rfl
      | vNull => rfl
      | vBool b => rfl
      | vStr s => rfl
      | vSym d => rfl
      | vFunc id => rfl
      | vObj fs => rfl

/-- Witness for C8: a valid user timeout of 5000 with `forceShutdown =
true` is accepted unchanged. -/
theorem C8_config_resolver_witness :
    (resolveShutdownConfig (some { shutdownTimeout := some (.vNum (.fin 5000))
                                 , forceShutdown := some true })).timeoutMs = .fin 5000 :=
  C8_config_resolver.1
    (some { shutdownTimeout := some (.vNum (.fin 5000)), forceShutdown := some true })
    5000 rfl (by norm_num)

/-- C9: the timeout guard returns the wrapped operation outcome when the
operation settles strictly before the deadline; when the operation never
settles or the deadline fires first it settles at the deadline with a
rejection whose error is a `ShutdownTimeoutError` (distinguishable by
`instanceof`) whose message embeds the operation label and the deadline
value in milliseconds. -/
theorem C9_timeout_guard :
    (∀ (α : Type) (op : AsyncResult α) (t tm : Nat) (label : String),
        op.settlesAt = some t → t < tm →
        withTimeout op tm label = (t, op.value)) ∧
    (∀ (α : Type) (op : AsyncResult α) (tm : Nat) (label : String),
        (op.settlesAt = none ∨ ∃ t, op.settlesAt = some t ∧ tm ≤ t) →
        withTimeout op tm label =
          (tm, .error (.errObj (shutdownTimeoutError label tm)))) ∧
    (∀ (label : String) (tm : Nat),
        (shutdownTimeoutError label tm).message =
          label ++ " exceeded timeout of " ++ toString tm ++ "ms" ∧
        (shutdownTimeoutError label tm).name = "ShutdownTimeoutError" ∧
        (shutdownTimeoutError label tm).timeoutInstance = true ∧
        isTimeoutThrown (.errObj (shutdownTimeoutError label tm)) = true) := by
  refine ⟨?_, ?_, ?_⟩
  · intro α op t tm label hset ht
    unfold withTimeout
    simp only [hset]
    rw [if_pos ht]
  · intro α op tm label hbad
    rcases hbad with hnone | ⟨t, hset, hle⟩
    · unfold withTimeout
      rw [hnone]
    · unfold withTimeout
      simp only [hset]
      rw [if_neg (not_lt.mpr hle)]
  · intro label tm
    exact ⟨rfl, rfl, rfl, rfl⟩

/-- Witness for C9: a 3 ms operation under a 10 ms deadline wins the race;
a never-settling operation under a 10 ms deadline times out. -/
theorem C9_timeout_guard_witness :
    withTimeout ({ settlesAt := some 3, value := .ok 42 } : AsyncResult Nat) 10 "demo" =
      (3, .ok 42) ∧
    withTimeout ({ settlesAt := none, value := .ok 0 } : AsyncResult Nat) 10 "demo" =
      (10, .error (.errObj (shutdownTimeoutError "demo" 10))) :=
  ⟨C9_timeout_guard.1 Nat { settlesAt := some 3, value := .ok 42 } 3 10 "demo" rfl
      (by omega),
   C9_timeout_guard.2.1 Nat { settlesAt := none, value := .ok 0 } 10 "demo"
      (Or.inl rfl)⟩

/-- C10: the `close` member built by `createConnectionWrapper` forwards
`options.forceShutdown` to the native close when invoked with no `force`
argument, and false when `forceShutdown` was not provided either. -/
theorem C10_wrapper_close_default :
    (∀ fs : Option Bool, createdWrapperCloseForce fs none = fs.getD false) ∧
    (∀ b : Bool, createdWrapperCloseForce (some b) none = b) ∧
    createdWrapperCloseForce none none = false := by
  refine ⟨?_, ?_, rfl⟩
  · intro fs
    cases fs <;> rfl
  · intro b
    rfl

end Shutdown
